import Mathlib

/-!
Shallow embedding of the per-camera RTSP stream worker declared in
`Source/RtspStreamProcessor.h` (class `ipfreely::RtspStreamProcessor`).
Only the header is available in the sources; the bodies of the member
functions are therefore modelled from the specification, while member
default values, member types and const-qualifications are taken from the
header itself.  OpenCV matrices are modelled as row-major grids of
grayscale intensities, mutexes and the Qt image type are elided, and the
video-source read is an explicit `Option Frame` input to each iteration.
-/

namespace IpFreely

/-- A grayscale frame: rows of pixel intensity values (models `cv::Mat`). -/
abbrev Frame := List (List Nat)

/-- Number of rows (the frame height). -/
def frameRows (f : Frame) : Nat := f.length

/-- Number of columns of the first row (the frame width). -/
def frameCols (f : Frame) : Nat := (f.headD []).length

/-- Pixel access with fail-safe default 0 outside the frame. -/
def frameAt (f : Frame) (r j : Nat) : Nat := (f.getD r []).getD j 0

/-- Absolute difference of two pixel intensities. -/
def absDiff (a b : Nat) : Nat := max a b - min a b

/-- A rectangle, models `cv::Rect` with its `x`, `y`, `width`, `height` members. -/
structure Rect where
  x : Nat
  y : Nat
  width : Nat
  height : Nat
deriving DecidableEq, Repr

/-- The zero rectangle `{0, 0, 0, 0}`, the default of `m_motionBoundingRect`. -/
def zeroRect : Rect := { x := 0, y := 0, width := 0, height := 0 }

/-- Area of a rectangle. -/
def Rect.area (r : Rect) : Nat := r.width * r.height

/-- Modelled from the spec: thresholding of the absolute pixel-wise
difference between consecutive slots of the 3-slot grayscale buffer
(previous/current/next).  A pixel counts as changed when its absolute
difference exceeds the deviation threshold for both consecutive slot
pairs. -/
def pixelChanged (dev a b c : Nat) : Bool :=
  decide (dev < absDiff a b) && decide (dev < absDiff b c)

/-- Modelled from the spec: the changed-pixel mask, listed as the positions
(row, column) of the changed pixels; the scan region is taken from the
current frame's dimensions. -/
def changedPositions (dev : Nat) (p c n : Frame) : List (Nat × Nat) :=
  (List.range c.length).flatMap (fun r =>
    (List.range ((c.getD r []).length)).filterMap (fun j =>
      if pixelChanged dev (frameAt p r j) (frameAt c r j) (frameAt n r j)
      then some (r, j) else none))

/-- Modelled from the spec: the bounding rectangle enclosing the changed
region; the zero rectangle when no pixel changed. -/
def boundingRect (ps : List (Nat × Nat)) : Rect :=
  match ps with
  | [] => zeroRect
  | q :: qs =>
    let minR := qs.foldl (fun a x => min a x.1) q.1
    let maxR := qs.foldl (fun a x => max a x.1) q.1
    let minC := qs.foldl (fun a x => min a x.2) q.2
    let maxC := qs.foldl (fun a x => max a x.2) q.2
    { x := minC, y := minR, width := maxC - minC + 1, height := maxR - minR + 1 }

/-- Modelled from the spec (the body of `DetectMotion` is not in the
sources): count the changed pixels of the thresholded difference of
consecutive grayscale buffer slots; if the count exceeds the configured
changed-pixel threshold, compute the bounding rectangle of the changed
region; if its area exceeds the minimum-area threshold, declare motion and
return the rectangle for overlay; otherwise no motion and the zero
rectangle. -/
def DetectMotion (dev thr minArea : Nat) (p c n : Frame) : Bool × Rect :=
  if thr < (changedPositions dev p c n).length then
    if minArea < (boundingRect (changedPositions dev p c n)).area then
      (true, boundingRect (changedPositions dev p c n))
    else (false, zeroRect)
  else (false, zeroRect)

/-- A point of local time for schedule evaluation: day-of-week row and
hour-of-day column of the schedule grid. -/
structure LocalTime where
  dayOfWeek : Nat
  hourOfDay : Nat
deriving DecidableEq, Repr

/-- A schedule grid is well formed when all rows have equal length. -/
def gridWellFormed (grid : List (List Bool)) : Bool :=
  match grid with
  | [] => true
  | r :: rs => rs.all (fun row => row.length == r.length)

/-- Modelled from the spec: pure evaluation of a schedule grid at a local
time.  No grid supplied means always active; a malformed grid means always
inactive (fail-safe); otherwise look up day-of-week row, hour-of-day
column, out-of-range reads being inactive. -/
def scheduleActive (grid : List (List Bool)) (t : LocalTime) : Bool :=
  if grid.isEmpty then true
  else if gridWellFormed grid then
    (grid.getD t.dayOfWeek []).getD t.hourOfDay false
  else false

/-- The motion detector sensitivity modes (`eMotionDetectorMode`). -/
inductive eMotionDetectorMode where
  | off
  | low
  | medium
  | high
deriving DecidableEq, Repr

/-- An open output writer (models `cv::VideoWriter` held by
`m_videoWriter`): its file name and the resolution and frame rate fixed
when it was opened. -/
structure Writer where
  fileName : String
  width : Nat
  height : Nat
  fps : ℚ
deriving DecidableEq, Repr

/-- Modelled from the spec: opening a segment file named from the stream
name plus a timestamp, with resolution and frame rate fixed at open
time. -/
def mkWriter (name : String) (ts : Nat) (w h : Nat) (fps : ℚ) : Writer :=
  { fileName := name ++ "_" ++ toString ts, width := w, height := h, fps := fps }

/-- The worker state: the data members of `RtspStreamProcessor`
(`RtspStreamProcessor.h`, lines 130-164), minus the mutexes, the sync
event, the capture handle and the drawing colour, which have no
observable value. -/
structure ProcState where
  updatePeriodMillisecs : ℚ
  fps : ℚ
  name : String
  completeRtspUrl : String
  saveFolderPath : String
  requiredFileDurationSecs : ℚ
  recordingSchedule : List (List Bool)
  useRecordingSchedule : Bool
  motionSchedule : List (List Bool)
  useMotionSchedule : Bool
  shrinkFramesForMotionDetection : Bool
  motionSensitivity : eMotionDetectorMode
  enableVideoWriting : Bool
  videoWidth : Nat
  videoHeight : Nat
  videoFrame : Option Frame
  videoWriter : Option Writer
  maxImageDeviation : Nat
  minImageChangeArea : Nat
  imageChangesThreshold : Nat
  prevGreyFrame : Frame
  currentGreyFrame : Frame
  nextGreyFrame : Frame
  motionBoundingRect : Rect
  fileDurationSecs : ℚ
  videoFrameUpdated : Bool
deriving DecidableEq

/-- The constructor: member defaults are those of the header
(`m_updatePeriodMillisecs{40}`, `m_fps{25.0}`, `m_enableVideoWriting{false}`,
`m_videoWidth{0}`, `m_videoHeight{0}`, `m_motionBoundingRect{0,0,0,0}`,
`m_fileDurationSecs{0.0}`, `m_videoFrameUpdated{false}`).  Modelled from
the spec: a schedule feature is in use exactly when its grid is
non-empty. -/
def construct (name completeRtspUrl saveFolderPath : String)
    (requiredFileDurationSecs : ℚ)
    (recordingSchedule motionSchedule : List (List Bool))
    (motionSensitivity : eMotionDetectorMode)
    (shrinkFramesForMotionDetection : Bool) : ProcState :=
  { updatePeriodMillisecs := 40
    fps := 25
    name := name
    completeRtspUrl := completeRtspUrl
    saveFolderPath := saveFolderPath
    requiredFileDurationSecs := requiredFileDurationSecs
    recordingSchedule := recordingSchedule
    useRecordingSchedule := !recordingSchedule.isEmpty
    motionSchedule := motionSchedule
    useMotionSchedule := !motionSchedule.isEmpty
    shrinkFramesForMotionDetection := shrinkFramesForMotionDetection
    motionSensitivity := motionSensitivity
    enableVideoWriting := false
    videoWidth := 0
    videoHeight := 0
    videoFrame := none
    videoWriter := none
    maxImageDeviation := 0
    minImageChangeArea := 0
    imageChangesThreshold := 0
    prevGreyFrame := []
    currentGreyFrame := []
    nextGreyFrame := []
    motionBoundingRect := zeroRect
    fileDurationSecs := 0
    videoFrameUpdated := false }

/-- `SetEnableVideoWriting`: set the writing-enabled request flag. -/
def SetEnableVideoWriting (s : ProcState) (enable : Bool) : ProcState :=
  { s with enableVideoWriting := enable }

/-- `StartVideoWriting`: request recording; applied at the next iteration
boundary. -/
def StartVideoWriting (s : ProcState) : ProcState :=
  SetEnableVideoWriting s true

/-- `StopVideoWriting`: request the end of recording. -/
def StopVideoWriting (s : ProcState) : ProcState :=
  SetEnableVideoWriting s false

/-- `GetEnableVideoWriting`: the current requested writing state. -/
def GetEnableVideoWriting (s : ProcState) : Bool :=
  s.enableVideoWriting

/-- `VideoFrameUpdated`: declared `const noexcept` in the header while
`m_videoFrameUpdated` is not `mutable`, so the call observes the flag and
cannot modify the state; modelled as the returned flag paired with the
(unchanged) state after the call. -/
def VideoFrameUpdated (s : ProcState) : Bool × ProcState :=
  (s.videoFrameUpdated, s)

/-- `CurrentFps`: the current stream frame rate. -/
def CurrentFps (s : ProcState) : ℚ :=
  s.fps

/-- Modelled from the spec (the body of `CreateCaptureObjects` is not in
the sources): opening the video source yields the stream's frame rate and
the iteration update period is derived from the target fps. -/
def CreateCaptureObjects (s : ProcState) (streamFps : ℚ) : ProcState :=
  { s with fps := streamFps, updatePeriodMillisecs := 1000 / streamFps }

/-- Modelled from the spec (the body of `CheckRecordingSchedule` is not in
the sources): with a recording schedule in use, evaluate it at the current
time; with none, recording is gated by the request flag alone. -/
def CheckRecordingSchedule (s : ProcState) (t : LocalTime) : Bool :=
  if s.useRecordingSchedule then scheduleActive s.recordingSchedule t else true

/-- Modelled from the spec (the body of `CheckMotionSchedule` is not in
the sources): with a motion schedule in use, evaluate it at the current
time; with none, motion detection is always allowed. -/
def CheckMotionSchedule (s : ProcState) (t : LocalTime) : Bool :=
  if s.useMotionSchedule then scheduleActive s.motionSchedule t else true

/-- Modelled from the spec (the body of `GrabVideoFrame` is not in the
sources): deep-copy the newly read frame into the shared store, set the
updated flag and recompute the dimensions. -/
def GrabVideoFrame (s : ProcState) (f : Frame) : ProcState :=
  { s with videoFrame := some f
           videoFrameUpdated := true
           videoWidth := frameCols f
           videoHeight := frameRows f }

/-- Number of open writers held by the recording session. -/
def openWriterCount (s : ProcState) : Nat :=
  match s.videoWriter with
  | some _ => 1
  | none => 0

/-- Modelled from the spec (the body of `WriteVideoFrame` is not in the
sources): while writing is active, open a session if none exists, rotate
(close and reopen a fresh segment file) once the elapsed session duration
has reached the configured segment duration, and otherwise append the
frame, accumulating one frame period of duration; while inactive, close
any open session. -/
def WriteVideoFrame (s : ProcState) (active : Bool) (ts : Nat) : ProcState :=
  if active then
    match s.videoWriter with
    | none =>
      { s with videoWriter := some (mkWriter s.name ts s.videoWidth s.videoHeight s.fps)
               fileDurationSecs := 1 / s.fps }
    | some _ =>
      if s.requiredFileDurationSecs ≤ s.fileDurationSecs then
        { s with videoWriter := some (mkWriter s.name ts s.videoWidth s.videoHeight s.fps)
                 fileDurationSecs := 1 / s.fps }
      else
        { s with fileDurationSecs := s.fileDurationSecs + 1 / s.fps }
  else
    { s with videoWriter := none, fileDurationSecs := 0 }

/-- Modelled from the spec (the body of `CheckMotionDetector` is not in
the sources): when the detector is configured on and the motion schedule
is active, rotate the 3-slot grayscale buffer (oldest discarded, the new
frame becomes next) and run the detector, recording the motion bounding
rectangle; otherwise skip all motion work. -/
def CheckMotionDetector (s : ProcState) (f : Frame) (t : LocalTime) : ProcState :=
  if (s.motionSensitivity ≠ eMotionDetectorMode.off) ∧ CheckMotionSchedule s t = true then
    { s with prevGreyFrame := s.currentGreyFrame
             currentGreyFrame := s.nextGreyFrame
             nextGreyFrame := f
             motionBoundingRect :=
               (DetectMotion s.maxImageDeviation s.imageChangesThreshold
                 s.minImageChangeArea s.currentGreyFrame s.nextGreyFrame f).2 }
  else s

/-- Modelled from the spec (the body of `ThreadIteration` is not in the
sources): read one frame; on failure do not terminate, record that the
frame store was not updated this tick and retry next tick; on success
store the frame, drive the segment writer from the writing request and the
recording schedule, then the motion detector from the motion schedule.
The iteration is a total function of the state and the tick inputs: no
failure escapes it. -/
def ThreadIteration (s : ProcState) (read : Option Frame) (t : LocalTime)
    (ts : Nat) : ProcState :=
  match read with
  | none => { s with videoFrameUpdated := false }
  | some f =>
    let s1 := GrabVideoFrame s f
    let s2 := WriteVideoFrame s1
      (s1.enableVideoWriting && CheckRecordingSchedule s1 t) ts
    CheckMotionDetector s2 f t

/-- The inputs a single iteration consumes: the read result from the video
source, the local time and a timestamp for file naming. -/
structure IterInput where
  read : Option Frame
  time : LocalTime
  timestamp : Nat
deriving DecidableEq

/-- The worker loop: fold the iterations over the successive tick
inputs. -/
def runWorker (s : ProcState) (inputs : List IterInput) : ProcState :=
  inputs.foldl (fun st i => ThreadIteration st i.read i.time i.timestamp) s

/-- A concrete open writer, used to instantiate theorems about a state
holding a recording session. -/
def exampleWriter : Writer :=
  { fileName := "cam_0", width := 640, height := 480, fps := 25 }

/-- A concrete worker state holding an open recording session whose
segment duration has not yet elapsed. -/
def exampleWritingState : ProcState :=
  { construct "cam" "rtsp://user:pw@host/stream" "/videos" 60 [] []
      eMotionDetectorMode.off false with
    videoWriter := some exampleWriter }

/-- A concrete worker state whose frame-updated flag is set and not yet
polled. -/
def exampleUpdatedState : ProcState :=
  { construct "cam" "rtsp://user:pw@host/stream" "/videos" 60 [] []
      eMotionDetectorMode.off false with
    videoFrameUpdated := true }

/-- A pixel is never changed with respect to itself. -/
theorem absDiff_self (a : Nat) : absDiff a a = 0 := by
  simp [absDiff]

/-- When no pixel of the scan region is marked changed, the changed-pixel
list is empty. -/
theorem changedPositions_eq_nil (dev : Nat) (p c n : Frame)
    (h : ∀ r j, pixelChanged dev (frameAt p r j) (frameAt c r j)
      (frameAt n r j) = false) :
    changedPositions dev p c n = [] := by
  unfold changedPositions
  rw [List.flatMap_eq_nil_iff]
  intro r _
  rw [List.filterMap_eq_nil_iff]
  intro j _
  simp [h r j]

/-- The recording session never holds more than one open writer. -/
theorem openWriterCount_le_one (s : ProcState) : openWriterCount s ≤ 1 := by
  unfold openWriterCount
  cases s.videoWriter <;> simp

/-- The segment writer step never touches the frame-updated flag. -/
theorem writeVideoFrame_videoFrameUpdated (s : ProcState) (a : Bool)
    (ts : Nat) :
    (WriteVideoFrame s a ts).videoFrameUpdated = s.videoFrameUpdated := by
  unfold WriteVideoFrame
  split
  · split
    · rfl
    · split <;> rfl
  · rfl

/-- The segment writer step never touches the writing-request flag. -/
theorem writeVideoFrame_enableVideoWriting (s : ProcState) (a : Bool)
    (ts : Nat) :
    (WriteVideoFrame s a ts).enableVideoWriting = s.enableVideoWriting := by
  unfold WriteVideoFrame
  split
  · split
    · rfl
    · split <;> rfl
  · rfl

/-- The motion detector step never touches the frame-updated flag. -/
theorem checkMotionDetector_videoFrameUpdated (s : ProcState) (f : Frame)
    (t : LocalTime) :
    (CheckMotionDetector s f t).videoFrameUpdated = s.videoFrameUpdated := by
  unfold CheckMotionDetector
  split <;> rfl

/-- The motion detector step never touches the writing-request flag. -/
theorem checkMotionDetector_enableVideoWriting (s : ProcState) (f : Frame)
    (t : LocalTime) :
    (CheckMotionDetector s f t).enableVideoWriting = s.enableVideoWriting := by
  unfold CheckMotionDetector
  split <;> rfl

/-- Unfolding of a successful iteration into its three steps. -/
theorem threadIteration_some (s : ProcState) (f : Frame) (t : LocalTime)
    (ts : Nat) :
    ThreadIteration s (some f) t ts =
      CheckMotionDetector
        (WriteVideoFrame (GrabVideoFrame s f)
          ((GrabVideoFrame s f).enableVideoWriting &&
            CheckRecordingSchedule (GrabVideoFrame s f) t) ts) f t := rfl

/-- No iteration changes the writing-request flag: it is only ever set by
the public start/stop operations. -/
theorem threadIteration_enableVideoWriting (s : ProcState)
    (read : Option Frame) (t : LocalTime) (ts : Nat) :
    (ThreadIteration s read t ts).enableVideoWriting =
      s.enableVideoWriting := by
  cases read with
  | none => rfl
  | some f =>
    rw [threadIteration_some, checkMotionDetector_enableVideoWriting,
      writeVideoFrame_enableVideoWriting]
    rfl

/-- Claim C1: a failure to read a frame never terminates the worker nor
escapes the loop: the iteration is a total function whose only effect on a
failed tick is that the frame-updated flag is recorded false, and the loop
keeps folding over the remaining tick inputs. -/
theorem threadIteration_read_failure_safe (s : ProcState) (t : LocalTime)
    (ts : Nat) (rest : List IterInput) :
    ThreadIteration s none t ts = { s with videoFrameUpdated := false } ∧
    (ThreadIteration s none t ts).videoFrameUpdated = false ∧
    runWorker s ({ read := none, time := t, timestamp := ts } :: rest) =
      runWorker { s with videoFrameUpdated := false } rest :=
  ⟨rfl, rfl, rfl⟩

/-- Claim C2: a malformed schedule grid (rows not all of equal length)
evaluates as inactive at every time, both as the recording schedule and as
the motion schedule; evaluation is a total function. -/
theorem malformed_schedule_always_inactive (g other : List (List Bool))
    (h : gridWellFormed g = false) (t : LocalTime)
    (name url folder : String) (d : ℚ) (mode : eMotionDetectorMode)
    (sh : Bool) :
    scheduleActive g t = false ∧
    CheckRecordingSchedule (construct name url folder d g other mode sh) t
      = false ∧
    CheckMotionSchedule (construct name url folder d other g mode sh) t
      = false := by
  have hne : g.isEmpty = false := by
    cases g with
    | nil => simp [gridWellFormed] at h
    | cons r rs => rfl
  have hsa : scheduleActive g t = false := by
    unfold scheduleActive
    rw [hne]
    simp [h]
  refine ⟨hsa, ?_, ?_⟩
  · unfold CheckRecordingSchedule
    simp [construct, hne, hsa]
  · unfold CheckMotionSchedule
    simp [construct, hne, hsa]

/-- Witness for claim C2 at a concrete malformed grid and time. -/
theorem malformed_schedule_always_inactive_check :
    scheduleActive [[true], [true, true]]
      { dayOfWeek := 0, hourOfDay := 0 } = false ∧
    CheckRecordingSchedule
      (construct "cam" "url" "folder" 60 [[true], [true, true]] []
        eMotionDetectorMode.off false)
      { dayOfWeek := 0, hourOfDay := 0 } = false ∧
    CheckMotionSchedule
      (construct "cam" "url" "folder" 60 [] [[true], [true, true]]
        eMotionDetectorMode.off false)
      { dayOfWeek := 0, hourOfDay := 0 } = false :=
  malformed_schedule_always_inactive [[true], [true, true]] [] (by decide)
    { dayOfWeek := 0, hourOfDay := 0 } "cam" "url" "folder" 60
    eMotionDetectorMode.off false

/-- Claim C3: when the two most recent grayscale buffer slots agree at
every pixel up to the deviation threshold (identical or near-identical
consecutive frames), the detector reports no motion and the zero bounding
rectangle. -/
theorem identical_frames_no_motion (dev thr minArea : Nat) (p c n : Frame)
    (h : ∀ r j, absDiff (frameAt c r j) (frameAt n r j) ≤ dev) :
    DetectMotion dev thr minArea p c n = (false, zeroRect) := by
  have hmask : ∀ r j, pixelChanged dev (frameAt p r j) (frameAt c r j)
      (frameAt n r j) = false := by
    intro r j
    unfold pixelChanged
    have hn : ¬ dev < absDiff (frameAt c r j) (frameAt n r j) :=
      Nat.not_lt.mpr (h r j)
    simp [hn]
  have hnil := changedPositions_eq_nil dev p c n hmask
  unfold DetectMotion
  rw [hnil]
  simp

/-- Witness for claim C3 at concrete identical consecutive frames. -/
theorem identical_frames_no_motion_check :
    DetectMotion 0 0 0 [[1]] [[2, 3], [4]] [[2, 3], [4]]
      = (false, zeroRect) :=
  identical_frames_no_motion 0 0 0 [[1]] [[2, 3], [4]] [[2, 3], [4]]
    (fun r j => by simp [absDiff_self])

/-- Claim C4: motion is declared exactly when the changed-pixel count
exceeds the configured changed-pixel threshold and the bounding rectangle
of the changed region has area exceeding the configured minimum-area
threshold; when declared, that rectangle is returned for overlay, and
otherwise the zero rectangle. -/
theorem detectMotion_gating (dev thr minArea : Nat) (p c n : Frame) :
    DetectMotion dev thr minArea p c n =
      if thr < (changedPositions dev p c n).length ∧
          minArea < (boundingRect (changedPositions dev p c n)).area then
        (true, boundingRect (changedPositions dev p c n))
      else (false, zeroRect) := by
  unfold DetectMotion
  by_cases h1 : thr < (changedPositions dev p c n).length
  · by_cases h2 : minArea < (boundingRect (changedPositions dev p c n)).area
    · simp [h1, h2]
    · simp [h1, h2]
  · simp [h1]

/-- Claim C5: requesting video writing twice in immediate succession is
the same request as once (so exactly one writer is opened at the next
iteration boundary); the recording session holds at most one open writer;
and a session whose segment duration has not elapsed keeps its writer
(hence the resolution fixed at open time) across a writer step. -/
theorem startVideoWriting_single_writer (s : ProcState) (ts : Nat)
    (w : Writer) (hw : s.videoWriter = some w)
    (hdur : s.fileDurationSecs < s.requiredFileDurationSecs) :
    StartVideoWriting (StartVideoWriting s) = StartVideoWriting s ∧
    (WriteVideoFrame s true ts).videoWriter = some w ∧
    openWriterCount (WriteVideoFrame s true ts) ≤ 1 ∧
    openWriterCount (WriteVideoFrame s false ts) ≤ 1 := by
  have hnle : ¬ s.requiredFileDurationSecs ≤ s.fileDurationSecs :=
    not_le.mpr hdur
  refine ⟨rfl, ?_, openWriterCount_le_one _, openWriterCount_le_one _⟩
  simp [WriteVideoFrame, hw, hnle]

/-- Witness for claim C5 at a concrete state with an open session. -/
theorem startVideoWriting_single_writer_check :
    StartVideoWriting (StartVideoWriting exampleWritingState)
      = StartVideoWriting exampleWritingState ∧
    (WriteVideoFrame exampleWritingState true 7).videoWriter
      = some exampleWriter ∧
    openWriterCount (WriteVideoFrame exampleWritingState true 7) ≤ 1 ∧
    openWriterCount (WriteVideoFrame exampleWritingState false 7) ≤ 1 :=
  startVideoWriting_single_writer exampleWritingState 7 exampleWriter rfl
    (by decide)

/-- Claim C6: with writing active, the writer step closes and reopens a
fresh segment file exactly when no session exists or the elapsed session
duration has reached the configured segment duration, and otherwise keeps
the current session; segment files are named from the stream name plus a
timestamp. -/
theorem segment_rotation (s : ProcState) (ts : Nat) :
    (WriteVideoFrame s true ts).videoWriter =
      (if s.videoWriter = none ∨
          s.requiredFileDurationSecs ≤ s.fileDurationSecs then
        some (mkWriter s.name ts s.videoWidth s.videoHeight s.fps)
      else s.videoWriter) ∧
    (mkWriter s.name ts s.videoWidth s.videoHeight s.fps).fileName =
      s.name ++ "_" ++ toString ts := by
  constructor
  · cases hw : s.videoWriter with
    | none => simp [WriteVideoFrame, hw]
    | some w =>
      by_cases hd : s.requiredFileDurationSecs ≤ s.fileDurationSecs
      · simp [WriteVideoFrame, hw, hd]
      · simp [WriteVideoFrame, hw, hd]
  · rfl

/-- Claim C7: with no schedule grids supplied at construction (the
defaults), both the recording and the motion schedule evaluate as active
at every time. -/
theorem empty_schedule_always_active (name url folder : String) (d : ℚ)
    (mode : eMotionDetectorMode) (sh : Bool) (t : LocalTime) :
    CheckRecordingSchedule (construct name url folder d [] [] mode sh) t
      = true ∧
    CheckMotionSchedule (construct name url folder d [] [] mode sh) t
      = true :=
  ⟨rfl, rfl⟩

/-- Claim C8 counterexample: `VideoFrameUpdated` is a const observer (the
header declares it `const` and `m_videoFrameUpdated` is not `mutable`), so
it cannot clear the flag: two consecutive calls with no intervening frame
on a state whose flag is set both return true, where the claim demands the
second call return false. -/
theorem videoFrameUpdated_second_call_not_false :
    ¬ (VideoFrameUpdated
        (VideoFrameUpdated exampleUpdatedState).2).1 = false := by
  decide

/-- Claim C8 (amended): `VideoFrameUpdated` returns the current value of
the frame-updated flag and leaves the state unchanged (no read-and-clear),
so consecutive calls agree; the flag itself is maintained by the worker,
set on a successful frame grab and recorded false on a failed tick. -/
theorem videoFrameUpdated_const_observer (s : ProcState) (f : Frame)
    (t : LocalTime) (ts : Nat) :
    VideoFrameUpdated s = (s.videoFrameUpdated, s) ∧
    (VideoFrameUpdated (VideoFrameUpdated s).2).1
      = (VideoFrameUpdated s).1 ∧
    (ThreadIteration s (some f) t ts).videoFrameUpdated = true ∧
    (ThreadIteration s none t ts).videoFrameUpdated = false := by
  refine ⟨rfl, rfl, ?_, rfl⟩
  rw [threadIteration_some, checkMotionDetector_videoFrameUpdated,
    writeVideoFrame_videoFrameUpdated]
  rfl

/-- Claim C9: a freshly constructed processor has video writing disabled,
zero frame dimensions and the zero motion bounding rectangle, and an
iteration never enables writing by itself: it stays disabled until
`StartVideoWriting` is called. -/
theorem fresh_state_defaults (name url folder : String) (d : ℚ)
    (g1 g2 : List (List Bool)) (mode : eMotionDetectorMode) (sh : Bool)
    (read : Option Frame) (t : LocalTime) (ts : Nat) :
    GetEnableVideoWriting (construct name url folder d g1 g2 mode sh)
      = false ∧
    (construct name url folder d g1 g2 mode sh).videoWidth = 0 ∧
    (construct name url folder d g1 g2 mode sh).videoHeight = 0 ∧
    (construct name url folder d g1 g2 mode sh).motionBoundingRect
      = zeroRect ∧
    GetEnableVideoWriting
      (ThreadIteration (construct name url folder d g1 g2 mode sh)
        read t ts) = false := by
  refine ⟨rfl, rfl, rfl, rfl, ?_⟩
  unfold GetEnableVideoWriting
  rw [threadIteration_enableVideoWriting]
  rfl

/-- Claim C10: the iteration update period is 1000 divided by the target
frame rate: the header defaults are 25 fps and a 40 ms period, and the
relation is maintained when the stream's frame rate is adopted. -/
theorem fps_period_relation (s : ProcState) (q : ℚ)
    (name url folder : String) (d : ℚ) (g1 g2 : List (List Bool))
    (mode : eMotionDetectorMode) (sh : Bool) :
    CurrentFps (construct name url folder d g1 g2 mode sh) = 25 ∧
    (construct name url folder d g1 g2 mode sh).updatePeriodMillisecs
      = 40 ∧
    (construct name url folder d g1 g2 mode sh).updatePeriodMillisecs
      = 1000 / CurrentFps (construct name url folder d g1 g2 mode sh) ∧
    CurrentFps (CreateCaptureObjects s q) = q ∧
    (CreateCaptureObjects s q).updatePeriodMillisecs
      = 1000 / CurrentFps (CreateCaptureObjects s q) := by
  refine ⟨rfl, rfl, ?_, rfl, rfl⟩
  show (40 : ℚ) = 1000 / 25
  norm_num

end IpFreely
